import Mathlib

/-!
# Verification of the weston-ivi-controller core

A shallow embedding of the weston-ivi-controller plugin core (state mirror,
notification trace, subscription manager, RPC handler and message framing),
translated from the Rust sources, together with theorems settling the
specification claims.

Conventions of the embedding:
* Rust `u32` ids are `Nat`; `i32` coordinates are `Int` (no arithmetic in the
  embedded code paths overflows 32 bits for the inputs considered).
* Rust `f32` opacities are embedded as `ℚ`; the `f32::EPSILON` comparison
  constant is `2⁻²³`.  NaN has no rational counterpart; the NaN branch of
  `validate_opacity` is therefore not representable and is noted where used.
* Stateful code is embedded as explicit state passing; emitted notifications
  are collected in a trace list, in emission order.
* Fallible code returns `Except`/`Option`.
-/

namespace Ivi

/-- `Rectangle` from `src/ffi/bindings.rs` (i32 fields). -/
structure Rectangle where
  x : Int
  y : Int
  width : Int
  height : Int
deriving DecidableEq

/-- `Orientation` from `src/ffi/bindings.rs`. -/
inductive Orientation where
  | Normal
  | Rotate90
  | Rotate180
  | Rotate270
deriving DecidableEq

/-- `Orientation::to_string` via the `Display` impl in `src/ffi/bindings.rs`. -/
def Orientation.to_string : Orientation → String
  | .Normal => "Normal"
  | .Rotate90 => "Rotate90"
  | .Rotate180 => "Rotate180"
  | .Rotate270 => "Rotate270"

/-- `f32::EPSILON` (2⁻²³) as a rational, used by the opacity diff tests. -/
def f32_epsilon : ℚ := 1 / 2 ^ 23

/-- `SurfaceState` from `src/controller/state.rs`. -/
structure SurfaceState where
  id : Nat
  orig_size : Int × Int
  src_rect : Rectangle
  dest_rect : Rectangle
  visibility : Bool
  opacity : ℚ
  orientation : Orientation
  z_order : Int
deriving DecidableEq

/-- `LayerState` from `src/controller/state.rs`. -/
structure LayerState where
  id : Nat
  visibility : Bool
  opacity : ℚ
deriving DecidableEq

/-- `NotificationData` from `src/controller/notifications.rs`, with each
variant carrying the same payload fields as the Rust enum (notification
structs inlined). -/
inductive NotificationData where
  | sourceGeometryChange (surface_id : Nat) (old_rect new_rect : Rectangle)
  | destinationGeometryChange (surface_id : Nat) (old_rect new_rect : Rectangle)
  | focusChange (old_focused_surface new_focused_surface : Option Nat)
  | surfaceCreated (surface_id : Nat)
  | surfaceDestroyed (surface_id : Nat)
  | visibilityChange (surface_id : Nat) (old_visibility new_visibility : Bool)
  | opacityChange (surface_id : Nat) (old_opacity new_opacity : ℚ)
  | orientationChange (surface_id : Nat) (old_orientation new_orientation : Orientation)
  | zOrderChange (surface_id : Nat) (old_z_order new_z_order : Int)
  | layerCreated (layer_id : Nat)
  | layerDestroyed (layer_id : Nat)
  | layerVisibilityChange (layer_id : Nat) (old_visibility new_visibility : Bool)
  | layerOpacityChange (layer_id : Nat) (old_opacity new_opacity : ℚ)
deriving DecidableEq

/-- `NotificationType` from `src/controller/notifications.rs` (note: a single
`GeometryChanged` value covers both source and destination geometry). -/
inductive NotificationType where
  | GeometryChanged
  | FocusChanged
  | SurfaceCreated
  | SurfaceDestroyed
  | VisibilityChanged
  | OpacityChanged
  | OrientationChanged
  | ZOrderChanged
  | LayerCreated
  | LayerDestroyed
  | LayerVisibilityChanged
  | LayerOpacityChanged
deriving DecidableEq

/-- The `notification_type` paired with each `NotificationData` by the
`emit_*` constructors of `NotificationManager` in
`src/controller/notifications.rs` (both geometry variants are emitted with
`NotificationType::GeometryChanged`). -/
def notification_type_of : NotificationData → NotificationType
  | .sourceGeometryChange .. => .GeometryChanged
  | .destinationGeometryChange .. => .GeometryChanged
  | .focusChange .. => .FocusChanged
  | .surfaceCreated .. => .SurfaceCreated
  | .surfaceDestroyed .. => .SurfaceDestroyed
  | .visibilityChange .. => .VisibilityChanged
  | .opacityChange .. => .OpacityChanged
  | .orientationChange .. => .OrientationChanged
  | .zOrderChange .. => .ZOrderChanged
  | .layerCreated .. => .LayerCreated
  | .layerDestroyed .. => .LayerDestroyed
  | .layerVisibilityChange .. => .LayerVisibilityChanged
  | .layerOpacityChange .. => .LayerOpacityChanged

/-! ## Association-list maps

The Rust mirror uses `HashMap<u32, _>`; the embedding uses association lists
with key-replacing insert.  Iteration order is the list order (the claims that
depend on per-client or per-entity behaviour never depend on map iteration
order across distinct keys). -/

/-- `HashMap::insert`: replace any existing binding of `k`. -/
def assoc_insert {α : Type} (k : Nat) (v : α) (l : List (Nat × α)) : List (Nat × α) :=
  (k, v) :: l.filter (fun p => p.1 != k)

/-- `HashMap::remove`. -/
def assoc_remove {α : Type} (k : Nat) (l : List (Nat × α)) : List (Nat × α) :=
  l.filter (fun p => p.1 != k)

/-- `HashMap::get`. -/
def assoc_find {α : Type} (k : Nat) (l : List (Nat × α)) : Option α :=
  List.lookup k l

/-- `HashMap::contains_key`. -/
def assoc_contains {α : Type} (k : Nat) (l : List (Nat × α)) : Bool :=
  (assoc_find k l).isSome

/-! ## State manager (`src/controller/state.rs`)

`StateManager` holds the surface/layer mirror and the focused surface.  The
`Arc<Mutex<NotificationManager>>` is replaced by returning the list of
notifications emitted by each operation, in emission order. -/

/-- The mutable state of `StateManager` from `src/controller/state.rs`. -/
structure StateManager where
  surfaces : List (Nat × SurfaceState)
  layers : List (Nat × LayerState)
  focused_surface : Option Nat
deriving DecidableEq

/-- `StateManager::new`: empty mirror, no focus. -/
def StateManager.new : StateManager :=
  { surfaces := [], layers := [], focused_surface := none }

/-- `StateManager::get_focused_surface`. -/
def StateManager.get_focused_surface (s : StateManager) : Option Nat :=
  s.focused_surface

/-- `StateManager::set_focused_surface`: store the new value, and emit a
`FocusChanged` notification exactly when the value changed. -/
def StateManager.set_focused_surface (s : StateManager) (new_focused : Option Nat) :
    StateManager × List NotificationData :=
  let old_focused := s.focused_surface
  let s2 := { s with focused_surface := new_focused }
  if old_focused = new_focused then (s2, [])
  else (s2, [.focusChange old_focused new_focused])

/-- `StateManager::add_surface`. -/
def StateManager.add_surface (s : StateManager) (id : Nat) (state : SurfaceState) :
    StateManager :=
  { s with surfaces := assoc_insert id state s.surfaces }

/-- `StateManager::remove_surface` (the removed value is not used by any
caller in the embedded paths, so only the state is returned). -/
def StateManager.remove_surface (s : StateManager) (id : Nat) : StateManager :=
  { s with surfaces := assoc_remove id s.surfaces }

/-- `StateManager::update_surface`. -/
def StateManager.update_surface (s : StateManager) (id : Nat) (state : SurfaceState) :
    StateManager :=
  { s with surfaces := assoc_insert id state s.surfaces }

/-- `StateManager::get_surface`. -/
def StateManager.get_surface (s : StateManager) (id : Nat) : Option SurfaceState :=
  assoc_find id s.surfaces

/-- `StateManager::has_surface`. -/
def StateManager.has_surface (s : StateManager) (id : Nat) : Bool :=
  assoc_contains id s.surfaces

/-- `StateManager::add_layer`. -/
def StateManager.add_layer (s : StateManager) (id : Nat) (state : LayerState) :
    StateManager :=
  { s with layers := assoc_insert id state s.layers }

/-- `StateManager::remove_layer`. -/
def StateManager.remove_layer (s : StateManager) (id : Nat) : StateManager :=
  { s with layers := assoc_remove id s.layers }

/-- `StateManager::update_layer`. -/
def StateManager.update_layer (s : StateManager) (id : Nat) (state : LayerState) :
    StateManager :=
  { s with layers := assoc_insert id state s.layers }

/-- `StateManager::get_layer`. -/
def StateManager.get_layer (s : StateManager) (id : Nat) : Option LayerState :=
  assoc_find id s.layers

/-- `StateManager::has_layer`. -/
def StateManager.has_layer (s : StateManager) (id : Nat) : Bool :=
  assoc_contains id s.layers

/-- `StateManager::handle_surface_destroyed`: remove from the mirror, emit
`SurfaceDestroyed`, then clear focus (emitting `FocusChanged`) if the
destroyed surface was focused. -/
def StateManager.handle_surface_destroyed (s : StateManager) (surface_id : Nat) :
    StateManager × List NotificationData :=
  let s1 := s.remove_surface surface_id
  let t1 : List NotificationData := [.surfaceDestroyed surface_id]
  let was_focused := s1.focused_surface = some surface_id
  if was_focused then
    let r := s1.set_focused_surface none
    (r.1, t1 ++ r.2)
  else (s1, t1)

/-! ## Event mask bits

The numeric values of `ivi_layout_notification_mask` come from bindings
generated at build time from the host C header, which are not part of the
repository sources. -/

/-- Modelled from the spec: the event-mask bit for opacity.  The generated
`ivi_layout_notification_mask` constants are absent from the sources; the
spec lists the bit categories {Opacity, SourceRect, DestRect, Dimension,
Position, Orientation, Visibility, PixelFormat, Add, Remove, Configure} and
`StateManager::handle_layer_configured` in `src/controller/state.rs`
hard-codes `NOTIF_OPACITY = 1 << 1` and `NOTIF_VISIBILITY = 1 << 7`, fixing
the layout as bits 1..11 in that order. -/
def IVI_NOTIFICATION_OPACITY : Nat := 2 ^ 1

/-- Modelled from the spec: event-mask bit for the source rectangle (see
`IVI_NOTIFICATION_OPACITY`). -/
def IVI_NOTIFICATION_SOURCE_RECT : Nat := 2 ^ 2

/-- Modelled from the spec: event-mask bit for the destination rectangle (see
`IVI_NOTIFICATION_OPACITY`). -/
def IVI_NOTIFICATION_DEST_RECT : Nat := 2 ^ 3

/-- Modelled from the spec: event-mask bit for dimension (see
`IVI_NOTIFICATION_OPACITY`). -/
def IVI_NOTIFICATION_DIMENSION : Nat := 2 ^ 4

/-- Modelled from the spec: event-mask bit for position (see
`IVI_NOTIFICATION_OPACITY`). -/
def IVI_NOTIFICATION_POSITION : Nat := 2 ^ 5

/-- Modelled from the spec: event-mask bit for orientation (see
`IVI_NOTIFICATION_OPACITY`). -/
def IVI_NOTIFICATION_ORIENTATION : Nat := 2 ^ 6

/-- Modelled from the spec: event-mask bit for visibility (matches the
`NOTIF_VISIBILITY = 1 << 7` constant hard-coded in
`src/controller/state.rs`). -/
def IVI_NOTIFICATION_VISIBILITY : Nat := 2 ^ 7

/-! ## Property-diff emitters (`src/controller/state.rs`) -/

/-- The opacity comparison used by the diff emitters:
`(old.opacity - new.opacity).abs() > f32::EPSILON`. -/
def opacity_differs (old_opacity new_opacity : ℚ) : Bool :=
  |old_opacity - new_opacity| > f32_epsilon

/-- `StateManager::emit_surface_property_changes`: diff every attribute
(source rect, dest rect, visibility, opacity, orientation, in that order)
and emit a notification for each difference. -/
def emit_surface_property_changes (surface_id : Nat) (old new : SurfaceState) :
    List NotificationData :=
  (if old.src_rect ≠ new.src_rect then
    [.sourceGeometryChange surface_id old.src_rect new.src_rect] else []) ++
  (if old.dest_rect ≠ new.dest_rect then
    [.destinationGeometryChange surface_id old.dest_rect new.dest_rect] else []) ++
  (if old.visibility ≠ new.visibility then
    [.visibilityChange surface_id old.visibility new.visibility] else []) ++
  (if opacity_differs old.opacity new.opacity then
    [.opacityChange surface_id old.opacity new.opacity] else []) ++
  (if old.orientation ≠ new.orientation then
    [.orientationChange surface_id old.orientation new.orientation] else [])

/-- The bit test `has` from `emit_surface_property_changes_filtered`:
`(event_mask & bit) != 0`. -/
def mask_has (event_mask bit : Nat) : Bool :=
  event_mask &&& bit != 0

/-- `StateManager::emit_surface_property_changes_filtered`: the event mask
gates which diff categories are considered; within each gated category the
old and new values are still compared. -/
def emit_surface_property_changes_filtered (surface_id : Nat)
    (old new : SurfaceState) (event_mask : Nat) : List NotificationData :=
  (if mask_has event_mask IVI_NOTIFICATION_POSITION
      || mask_has event_mask IVI_NOTIFICATION_SOURCE_RECT
      || mask_has event_mask IVI_NOTIFICATION_DEST_RECT
      || mask_has event_mask IVI_NOTIFICATION_DIMENSION then
    (if old.src_rect ≠ new.src_rect then
      [NotificationData.sourceGeometryChange surface_id old.src_rect new.src_rect] else []) ++
    (if old.dest_rect ≠ new.dest_rect then
      [NotificationData.destinationGeometryChange surface_id old.dest_rect new.dest_rect] else [])
  else []) ++
  (if mask_has event_mask IVI_NOTIFICATION_VISIBILITY then
    (if old.visibility ≠ new.visibility then
      [NotificationData.visibilityChange surface_id old.visibility new.visibility] else [])
  else []) ++
  (if mask_has event_mask IVI_NOTIFICATION_OPACITY then
    (if opacity_differs old.opacity new.opacity then
      [NotificationData.opacityChange surface_id old.opacity new.opacity] else [])
  else []) ++
  (if mask_has event_mask IVI_NOTIFICATION_ORIENTATION then
    (if old.orientation ≠ new.orientation then
      [NotificationData.orientationChange surface_id old.orientation new.orientation] else [])
  else [])

/-! ## Layout capability model

The layout capability is the host compositor interface (`ivi_layout_interface`
obtained through Weston); its behaviour is not part of the repository
sources. -/

/-- The property snapshot held by the capability for one surface (the fields
the core reads through `get_properties_of_surface`). -/
structure CapProps where
  src_rect : Rectangle
  dest_rect : Rectangle
  visibility : Bool
  opacity : ℚ
  orientation : Orientation
  event_mask : Nat
deriving DecidableEq

/-- Modelled from the spec: one capability-side surface.  The host layout
capability (spec §4.2) is external to the sources; per its contract, property
writers stage values and `commit_changes` atomically applies all pending
writes, while property readers return the current (committed) snapshot, or
nothing when the host cannot provide one. -/
structure CapSurface where
  orig_size : Int × Int
  props : Option CapProps
  pending : CapProps
deriving DecidableEq

/-- Modelled from the spec: the capability's surface table, keyed by surface
id (`get_surface_by_id`). -/
def Cap : Type := List (Nat × CapSurface)

/-- Modelled from the spec: `commit_changes` atomically publishes every
surface's pending writes as its current snapshot. -/
def commit_changes (cap : Cap) : Cap :=
  List.map (fun p => (p.1, { p.2 with props := some p.2.pending })) cap

/-- `IviSurface::source_rectangle` (`src/ffi/bindings/ivi_surface.rs`):
`None` when the properties are unavailable. -/
def CapSurface.source_rectangle (s : CapSurface) : Option Rectangle :=
  s.props.map (fun p => p.src_rect)

/-- `IviSurface::destination_rectangle`. -/
def CapSurface.destination_rectangle (s : CapSurface) : Option Rectangle :=
  s.props.map (fun p => p.dest_rect)

/-- `IviSurface::visibility`: `unwrap_or(false)`. -/
def CapSurface.visibility (s : CapSurface) : Bool :=
  (s.props.map (fun p => p.visibility)).getD false

/-- `IviSurface::opacity`: `map_or(1.0, ...)`. -/
def CapSurface.opacity (s : CapSurface) : ℚ :=
  (s.props.map (fun p => p.opacity)).getD 1

/-- `IviSurface::orientation`: `unwrap_or(Orientation::Normal)`. -/
def CapSurface.orientation (s : CapSurface) : Orientation :=
  (s.props.map (fun p => p.orientation)).getD .Normal

/-- `IviSurface::event_mask`: `unwrap_or(0)`. -/
def CapSurface.event_mask (s : CapSurface) : Nat :=
  (s.props.map (fun p => p.event_mask)).getD 0

/-- `get_surface_from_id` on the capability model. -/
def cap_find (cap : Cap) (id : Nat) : Option CapSurface :=
  assoc_find id cap

/-- Replace the entry for `id` in the capability table. -/
def cap_update (cap : Cap) (id : Nat) (s : CapSurface) : Cap :=
  assoc_insert id s cap

/-- `IviSurface::get_size_full` from `src/controller/ivi_wrapper.rs`: the
destination quadruple of the current properties, `(0,0,0,0)` when
unavailable. -/
def CapSurface.get_size_full (s : CapSurface) : Int × Int × Int × Int :=
  (s.props.map (fun p => (p.dest_rect.x, p.dest_rect.y, p.dest_rect.width,
    p.dest_rect.height))).getD (0, 0, 0, 0)

/-- `IviSurface::set_position` staging step from
`src/controller/ivi_wrapper.rs`: write a pending destination rectangle with
the new origin and the current (committed) size. -/
def CapSurface.stage_set_position (s : CapSurface) (x y : Int) : CapSurface :=
  let q := s.get_size_full
  { s with pending := { s.pending with
      dest_rect := { x := x, y := y, width := q.2.2.1, height := q.2.2.2 } } }

/-- `IviSurface::set_size` staging step from `src/controller/ivi_wrapper.rs`:
write a pending destination rectangle with the current (committed) origin and
the new size. -/
def CapSurface.stage_set_size (s : CapSurface) (width height : Int) : CapSurface :=
  let q := s.get_size_full
  { s with pending := { s.pending with
      dest_rect := { x := q.1, y := q.2.1, width := width, height := height } } }

/-! ## Configured-event algorithm (`src/controller/state.rs`) -/

/-- The new `SurfaceState` built by `StateManager::handle_surface_configured`
from the capability snapshot: `none` when the source or destination rectangle
is unavailable (the handler then aborts without mutation). -/
def cap_snapshot (surface_id : Nat) (s : CapSurface) (z_order : Int) :
    Option SurfaceState :=
  match s.source_rectangle, s.destination_rectangle with
  | some src, some dest =>
    some { id := surface_id, orig_size := s.orig_size, src_rect := src,
           dest_rect := dest, visibility := s.visibility, opacity := s.opacity,
           orientation := s.orientation, z_order := z_order }
  | _, _ => none

/-- `StateManager::handle_surface_configured`: read the prior snapshot from
the mirror, query the capability, preserve the prior z-order, diff (all
attributes when the event mask is 0, mask-gated otherwise), and write the new
snapshot into the mirror. -/
def StateManager.handle_surface_configured (st : StateManager) (cap : Cap)
    (surface_id : Nat) : StateManager × List NotificationData :=
  let old_state := st.get_surface surface_id
  match cap_find cap surface_id with
  | none => (st, [])
  | some s =>
    let z_order := ((old_state.map (fun o => o.z_order)).getD 0)
    match cap_snapshot surface_id s z_order with
    | none => (st, [])
    | some new_state =>
      let trace :=
        match old_state with
        | some old =>
          let event_mask := s.event_mask
          if event_mask = 0 then
            emit_surface_property_changes surface_id old new_state
          else
            emit_surface_property_changes_filtered surface_id old new_state event_mask
        | none => []
      (st.update_surface surface_id new_state, trace)

/-- `StateManager::handle_layer_configured` needs a capability-side layer
table; the layer analogue of `CapSurface` (modelled from the spec like
`CapSurface`, reads per `src/ffi/bindings/ivi_layer.rs`). -/
structure CapLayerProps where
  visibility : Bool
  opacity : ℚ
  event_mask : Nat
deriving DecidableEq

/-- Modelled from the spec: one capability-side layer, with staged pending
writes like `CapSurface`. -/
structure CapLayer where
  props : Option CapLayerProps
  pending : CapLayerProps
deriving DecidableEq

/-- Modelled from the spec: the capability's layer table (`get_layer_by_id`). -/
def LayerCap : Type := List (Nat × CapLayer)

/-- Modelled from the spec: `commit_changes` restricted to the layer table. -/
def commit_layer_changes (lcap : LayerCap) : LayerCap :=
  List.map (fun p => (p.1, { p.2 with props := some p.2.pending })) lcap

/-- `IviLayer::visibility`: `map_or(false, ...)`. -/
def CapLayer.visibility (l : CapLayer) : Bool :=
  (l.props.map (fun p => p.visibility)).getD false

/-- `IviLayer::opacity`: `map_or(1.0, ...)`. -/
def CapLayer.opacity (l : CapLayer) : ℚ :=
  (l.props.map (fun p => p.opacity)).getD 1

/-- `IviLayer::event_mask`: `map_or(0, ...)`. -/
def CapLayer.event_mask (l : CapLayer) : Nat :=
  (l.props.map (fun p => p.event_mask)).getD 0

/-- `get_layer_from_id` on the capability model. -/
def lcap_find (lcap : LayerCap) (id : Nat) : Option CapLayer :=
  assoc_find id lcap

/-- Replace the entry for `id` in the capability layer table. -/
def lcap_update (lcap : LayerCap) (id : Nat) (l : CapLayer) : LayerCap :=
  assoc_insert id l lcap

/-- `StateManager::handle_layer_configured`: read the prior layer snapshot,
query the capability, and emit mask-gated visibility/opacity notifications
(the mask constants `NOTIF_VISIBILITY = 1 << 7` and `NOTIF_OPACITY = 1 << 1`
are hard-coded at this point of `src/controller/state.rs` and coincide with
`IVI_NOTIFICATION_VISIBILITY`/`IVI_NOTIFICATION_OPACITY`). -/
def StateManager.handle_layer_configured (st : StateManager) (lcap : LayerCap)
    (layer_id : Nat) : StateManager × List NotificationData :=
  let old_state := st.get_layer layer_id
  match lcap_find lcap layer_id with
  | none => (st, [])
  | some l =>
    let event_mask := l.event_mask
    let new_state : LayerState :=
      { id := layer_id, visibility := l.visibility, opacity := l.opacity }
    let trace :=
      match old_state with
      | some old =>
        (if mask_has event_mask IVI_NOTIFICATION_VISIBILITY then
          (if old.visibility ≠ new_state.visibility then
            [NotificationData.layerVisibilityChange layer_id old.visibility
              new_state.visibility] else [])
        else []) ++
        (if mask_has event_mask IVI_NOTIFICATION_OPACITY then
          (if opacity_differs old.opacity new_state.opacity then
            [NotificationData.layerOpacityChange layer_id old.opacity
              new_state.opacity] else [])
        else [])
      | none => []
    (st.update_layer layer_id new_state, trace)

/-! ## Validation (`src/controller/validation.rs`)

The validators return the formatted error string that the callers feed into
`RpcError` (the `ValidationError` `Display` output, without its quote
characters). -/

/-- `i32::MIN / 2` from `validate_position`. -/
def MIN_COORD : Int := -1073741824

/-- `i32::MAX / 2` from `validate_position`. -/
def MAX_COORD : Int := 1073741823

/-- `validation::validate_position`: both coordinates must lie in
`[i32::MIN/2, i32::MAX/2]`. -/
def validate_position (x y : Int) : Except String Unit :=
  if x < MIN_COORD ∨ x > MAX_COORD then
    .error ("Invalid position: x = " ++ toString x)
  else if y < MIN_COORD ∨ y > MAX_COORD then
    .error ("Invalid position: y = " ++ toString y)
  else .ok ()

/-- `validation::validate_size`: both dimensions must be positive. -/
def validate_size (width height : Int) : Except String Unit :=
  if width ≤ 0 then .error ("Invalid size: width = " ++ toString width)
  else if height ≤ 0 then .error ("Invalid size: height = " ++ toString height)
  else .ok ()

/-- `validation::validate_opacity`: must lie in `[0, 1]`.  The `is_nan`
branch has no rational counterpart (NaN is not representable in `ℚ`). -/
def validate_opacity (opacity : ℚ) : Except String Unit :=
  if opacity < 0 ∨ opacity > 1 then .error "Invalid opacity"
  else .ok ()

/-- `validation::validate_z_order`: must lie in `[min, max]`. -/
def validate_z_order (z_order min max : Int) : Except String Unit :=
  if z_order < min ∨ z_order > max then .error "Invalid z-order"
  else .ok ()

/-! ## RPC protocol (`src/rpc/protocol.rs`) -/

/-- `RpcError` from `src/rpc/protocol.rs`. -/
structure RpcError where
  code : Int
  message : String
deriving DecidableEq

/-- `RpcError::invalid_params` (code `-32602`). -/
def RpcError.invalid_params (message : String) : RpcError :=
  { code := -32602, message := message }

/-- `RpcError::method_not_found` (code `-32601`). -/
def RpcError.method_not_found (method : String) : RpcError :=
  { code := -32601, message := "Method not found: " ++ method }

/-- `RpcError.internal_error` (code `-32603`). -/
def RpcError.internal_error (message : String) : RpcError :=
  { code := -32603, message := message }

/-- `RpcError::surface_not_found` (code `-32000`). -/
def RpcError.surface_not_found (id : Nat) : RpcError :=
  { code := -32000, message := "Surface not found: " ++ toString id }

/-- `RpcError::layer_not_found` (code `-32000`); defined by the protocol
module but called by no handler. -/
def RpcError.layer_not_found (id : Nat) : RpcError :=
  { code := -32000, message := "Layer not found: " ++ toString id }

/-! ## RPC handler (`src/rpc/handler.rs`)

Each handler is embedded as a function of the mirror state and the capability
tables, returning the response value (or `RpcError`), the updated state and
capability, and the emitted notification trace. -/

/-- The `{ success, committed }` JSON object returned by the mutators. -/
structure MutatorResult where
  success : Bool
  committed : Bool
deriving DecidableEq

/-- `RpcHandler::handle_set_position`: validate, check mirror membership,
stage the capability write; flush and re-read (diff) only when
`auto_commit`. -/
def handle_set_position (st : StateManager) (cap : Cap) (id : Nat) (x y : Int)
    (auto_commit : Bool) :
    Except RpcError MutatorResult × StateManager × Cap × List NotificationData :=
  match validate_position x y with
  | .error e => (.error (RpcError.invalid_params e), st, cap, [])
  | .ok _ =>
    if ¬ st.has_surface id then
      (.error (RpcError.surface_not_found id), st, cap, [])
    else
      match cap_find cap id with
      | none =>
        (.error (RpcError.internal_error ("Failed to get IVI surface " ++ toString id)),
          st, cap, [])
      | some s =>
        -- IviSurface::set_position validates again before staging the write
        match validate_position x y with
        | .error e => (.error (RpcError.internal_error e), st, cap, [])
        | .ok _ =>
          let cap2 := cap_update cap id (s.stage_set_position x y)
          if auto_commit then
            let cap3 := commit_changes cap2
            let r := st.handle_surface_configured cap3 id
            (.ok { success := true, committed := true }, r.1, cap3, r.2)
          else
            (.ok { success := true, committed := false }, st, cap2, [])

/-- `RpcHandler::handle_set_size`: like `handle_set_position`, with the size
validator and the size staging step. -/
def handle_set_size (st : StateManager) (cap : Cap) (id : Nat)
    (width height : Int) (auto_commit : Bool) :
    Except RpcError MutatorResult × StateManager × Cap × List NotificationData :=
  match validate_size width height with
  | .error e => (.error (RpcError.invalid_params e), st, cap, [])
  | .ok _ =>
    if ¬ st.has_surface id then
      (.error (RpcError.surface_not_found id), st, cap, [])
    else
      match cap_find cap id with
      | none =>
        (.error (RpcError.internal_error ("Failed to get IVI surface " ++ toString id)),
          st, cap, [])
      | some s =>
        match validate_size width height with
        | .error e => (.error (RpcError.internal_error e), st, cap, [])
        | .ok _ =>
          let cap2 := cap_update cap id (s.stage_set_size width height)
          if auto_commit then
            let cap3 := commit_changes cap2
            let r := st.handle_surface_configured cap3 id
            (.ok { success := true, committed := true }, r.1, cap3, r.2)
          else
            (.ok { success := true, committed := false }, st, cap2, [])

/-- `RpcHandler::handle_commit`: flush all pending capability writes and
return `{ success: true }`; the handler performs no re-read, no diff, and no
mirror mutation. -/
def handle_commit (st : StateManager) (cap : Cap) :
    Except RpcError Bool × StateManager × Cap × List NotificationData :=
  (.ok true, st, commit_changes cap, [])

/-- `RpcHandler::handle_set_orientation`: after the surface-existence check,
always fail with an internal error naming orientation as unsupported; the
capability and the mirror are untouched. -/
def handle_set_orientation (st : StateManager) (cap : Cap) (id : Nat)
    (_orientation : Orientation) (_auto_commit : Bool) :
    Except RpcError MutatorResult × StateManager × Cap × List NotificationData :=
  if ¬ st.has_surface id then
    (.error (RpcError.surface_not_found id), st, cap, [])
  else
    (.error (RpcError.internal_error
      "Orientation control not supported by current IVI API"), st, cap, [])

/-- `RpcHandler::handle_set_focus`: check the mirror, set the focused surface
(emitting `FocusChanged`), activate the surface on the capability, flush when
`auto_commit`. -/
def handle_set_focus (st : StateManager) (cap : Cap) (id : Nat)
    (auto_commit : Bool) :
    Except RpcError MutatorResult × StateManager × Cap × List NotificationData :=
  if ¬ st.has_surface id then
    (.error (RpcError.surface_not_found id), st, cap, [])
  else
    let r := st.set_focused_surface (some id)
    match cap_find cap id with
    | none =>
      (.error (RpcError.internal_error ("Failed to get IVI surface " ++ toString id)),
        r.1, cap, r.2)
    | some _ =>
      -- set_keyboard_focus / set_pointer_focus activate the surface on the
      -- host; activation has no counterpart in the capability table model
      if auto_commit then
        (.ok { success := true, committed := true }, r.1, commit_changes cap, r.2)
      else
        (.ok { success := true, committed := false }, r.1, cap, r.2)

/-- `RpcHandler::handle_get_surface`: snapshot or `surface_not_found`. -/
def handle_get_surface (st : StateManager) (id : Nat) :
    Except RpcError SurfaceState :=
  match st.get_surface id with
  | some surface => .ok surface
  | none => .error (RpcError.surface_not_found id)

/-- `RpcHandler::handle_get_layer`: snapshot, or an `invalid_params` error
with message "Layer {id} not found" when the layer is not in the mirror. -/
def handle_get_layer (st : StateManager) (id : Nat) :
    Except RpcError LayerState :=
  match st.get_layer id with
  | some layer => .ok layer
  | none => .error (RpcError.invalid_params ("Layer " ++ toString id ++ " not found"))

/-- `RpcHandler::handle_set_layer_visibility`: `invalid_params` when the
layer is unknown; otherwise stage the visibility write, and flush + re-read
when `auto_commit`. -/
def handle_set_layer_visibility (st : StateManager) (lcap : LayerCap) (id : Nat)
    (visible : Bool) (auto_commit : Bool) :
    Except RpcError MutatorResult × StateManager × LayerCap × List NotificationData :=
  if ¬ st.has_layer id then
    (.error (RpcError.invalid_params ("Layer " ++ toString id ++ " not found")),
      st, lcap, [])
  else
    match lcap_find lcap id with
    | none =>
      (.error (RpcError.internal_error ("Failed to get IVI layer " ++ toString id)),
        st, lcap, [])
    | some l =>
      let lcap2 := lcap_update lcap id
        { l with pending := { l.pending with visibility := visible } }
      if auto_commit then
        let lcap3 := commit_layer_changes lcap2
        let r := st.handle_layer_configured lcap3 id
        (.ok { success := true, committed := true }, r.1, lcap3, r.2)
      else
        (.ok { success := true, committed := false }, st, lcap2, [])

/-- `RpcHandler::handle_set_layer_opacity`: validate the opacity, then
`invalid_params` when the layer is unknown; otherwise stage the opacity
write, and flush + re-read when `auto_commit`. -/
def handle_set_layer_opacity (st : StateManager) (lcap : LayerCap) (id : Nat)
    (opacity : ℚ) (auto_commit : Bool) :
    Except RpcError MutatorResult × StateManager × LayerCap × List NotificationData :=
  match validate_opacity opacity with
  | .error e => (.error (RpcError.invalid_params e), st, lcap, [])
  | .ok _ =>
    if ¬ st.has_layer id then
      (.error (RpcError.invalid_params ("Layer " ++ toString id ++ " not found")),
        st, lcap, [])
    else
      match lcap_find lcap id with
      | none =>
        (.error (RpcError.internal_error ("Failed to get IVI layer " ++ toString id)),
          st, lcap, [])
      | some l =>
        match validate_opacity opacity with
        | .error _ => (.error (RpcError.internal_error "Invalid opacity value"), st, lcap, [])
        | .ok _ =>
          let lcap2 := lcap_update lcap id
            { l with pending := { l.pending with opacity := opacity } }
          if auto_commit then
            let lcap3 := commit_layer_changes lcap2
            let r := st.handle_layer_configured lcap3 id
            (.ok { success := true, committed := true }, r.1, lcap3, r.2)
          else
            (.ok { success := true, committed := false }, st, lcap2, [])

/-! ## Wire event types (`src/rpc/protocol.rs`)

`EventType` derives serde `Serialize`/`Deserialize`; for a fieldless enum the
wire form of each variant is exactly its identifier. -/

/-- `EventType` from `src/rpc/protocol.rs` (twelve variants; a single
`GeometryChanged` value, no separate source/destination variants). -/
inductive EventType where
  | SurfaceCreated
  | SurfaceDestroyed
  | GeometryChanged
  | VisibilityChanged
  | OpacityChanged
  | OrientationChanged
  | ZOrderChanged
  | FocusChanged
  | LayerCreated
  | LayerDestroyed
  | LayerVisibilityChanged
  | LayerOpacityChanged
deriving DecidableEq

/-- The serde `Serialize` form of `EventType`: the variant identifier. -/
def EventType.serialize : EventType → String
  | .SurfaceCreated => "SurfaceCreated"
  | .SurfaceDestroyed => "SurfaceDestroyed"
  | .GeometryChanged => "GeometryChanged"
  | .VisibilityChanged => "VisibilityChanged"
  | .OpacityChanged => "OpacityChanged"
  | .OrientationChanged => "OrientationChanged"
  | .ZOrderChanged => "ZOrderChanged"
  | .FocusChanged => "FocusChanged"
  | .LayerCreated => "LayerCreated"
  | .LayerDestroyed => "LayerDestroyed"
  | .LayerVisibilityChanged => "LayerVisibilityChanged"
  | .LayerOpacityChanged => "LayerOpacityChanged"

/-- The serde `Deserialize` form of `EventType`: accept exactly the twelve
variant identifiers (this is what parsing the `event_types` array of a
`subscribe`/`unsubscribe` request runs on each element). -/
def EventType.deserialize (s : String) : Option EventType :=
  if s = "SurfaceCreated" then some .SurfaceCreated
  else if s = "SurfaceDestroyed" then some .SurfaceDestroyed
  else if s = "GeometryChanged" then some .GeometryChanged
  else if s = "VisibilityChanged" then some .VisibilityChanged
  else if s = "OpacityChanged" then some .OpacityChanged
  else if s = "OrientationChanged" then some .OrientationChanged
  else if s = "ZOrderChanged" then some .ZOrderChanged
  else if s = "FocusChanged" then some .FocusChanged
  else if s = "LayerCreated" then some .LayerCreated
  else if s = "LayerDestroyed" then some .LayerDestroyed
  else if s = "LayerVisibilityChanged" then some .LayerVisibilityChanged
  else if s = "LayerOpacityChanged" then some .LayerOpacityChanged
  else none

/-- The `event_type` string placed in the notification `params` by
`NotificationBridge::convert_notification`
(`src/rpc/notification_bridge.rs`), one per `NotificationData` variant. -/
def bridge_event_type_string : NotificationData → String
  | .surfaceCreated .. => "SurfaceCreated"
  | .surfaceDestroyed .. => "SurfaceDestroyed"
  | .sourceGeometryChange .. => "SourceGeometryChanged"
  | .destinationGeometryChange .. => "DestinationGeometryChanged"
  | .visibilityChange .. => "VisibilityChanged"
  | .opacityChange .. => "OpacityChanged"
  | .orientationChange .. => "OrientationChanged"
  | .zOrderChange .. => "ZOrderChanged"
  | .focusChange .. => "FocusChanged"
  | .layerCreated .. => "LayerCreated"
  | .layerDestroyed .. => "LayerDestroyed"
  | .layerVisibilityChange .. => "LayerVisibilityChanged"
  | .layerOpacityChange .. => "LayerOpacityChanged"

/-- The identifier of the `EventType` variant that
`NotificationBridge::convert_notification` pairs with each notification as
the subscription topic (the first component of its returned tuple, as named
in `src/rpc/notification_bridge.rs`); it coincides with the `event_type`
string of the same match arm. -/
def bridge_topic_name (d : NotificationData) : String :=
  bridge_event_type_string d

/-- The thirteen EventType names the specification lists as the exact wire
strings. -/
def spec_event_type_names : List String :=
  ["SurfaceCreated", "SurfaceDestroyed", "SourceGeometryChanged",
   "DestinationGeometryChanged", "VisibilityChanged", "OpacityChanged",
   "OrientationChanged", "ZOrderChanged", "FocusChanged", "LayerCreated",
   "LayerDestroyed", "LayerVisibilityChanged", "LayerOpacityChanged"]

/-! ## Notification values and the subscription manager
(`src/controller/subscriptions.rs`) -/

/-- A JSON value (`serde_json::Value`); numbers are embedded as rationals. -/
inductive Json where
  | null
  | bool (b : Bool)
  | num (q : ℚ)
  | str (s : String)
  | arr (elems : List Json)
  | obj (fields : List (String × Json))

/-- `RpcNotification` from `src/rpc/protocol.rs`. -/
structure RpcNotification where
  method : String
  params : Json

/-- `DEFAULT_BUFFER_SIZE` from `src/controller/subscriptions.rs`. -/
def DEFAULT_BUFFER_SIZE : Nat := 100

/-- `ClientSubscription` from `src/controller/subscriptions.rs`: the
subscribed topic set (`HashSet`, embedded as a duplicate-free list), the
outbox (`VecDeque`, front first) and its capacity. -/
structure ClientSubscription where
  event_types : List EventType
  event_buffer : List RpcNotification
  buffer_size : Nat

/-- `ClientSubscription::new`. -/
def ClientSubscription.new (buffer_size : Nat) : ClientSubscription :=
  { event_types := [], event_buffer := [], buffer_size := buffer_size }

/-- `HashSet::insert` on the topic list. -/
def set_insert (e : EventType) (l : List EventType) : List EventType :=
  if l.contains e then l else l ++ [e]

/-- `ClientSubscription::subscribe`: insert every requested topic. -/
def ClientSubscription.subscribe (c : ClientSubscription)
    (event_types : List EventType) : ClientSubscription :=
  { c with event_types := event_types.foldl (fun acc e => set_insert e acc) c.event_types }

/-- `ClientSubscription::unsubscribe`: remove every requested topic. -/
def ClientSubscription.unsubscribe (c : ClientSubscription)
    (event_types : List EventType) : ClientSubscription :=
  { c with event_types := c.event_types.filter (fun e => ¬ event_types.contains e) }

/-- `ClientSubscription::is_subscribed`. -/
def ClientSubscription.is_subscribed (c : ClientSubscription) (e : EventType) : Bool :=
  c.event_types.contains e

/-- `ClientSubscription::queue_notification`: when the outbox is full
(`len >= buffer_size`), pop the oldest entry (the front; a no-op on an empty
deque), then push the new entry at the back. -/
def ClientSubscription.queue_notification (c : ClientSubscription)
    (notification : RpcNotification) : ClientSubscription :=
  let buf :=
    if c.event_buffer.length ≥ c.buffer_size then c.event_buffer.tail
    else c.event_buffer
  { c with event_buffer := buf ++ [notification] }

/-- `ClientSubscription::drain_notifications`: return the queued entries in
order and empty the outbox. -/
def ClientSubscription.drain_notifications (c : ClientSubscription) :
    List RpcNotification × ClientSubscription :=
  (c.event_buffer, { c with event_buffer := [] })

/-- `ClientSubscription::get_subscriptions`. -/
def ClientSubscription.get_subscriptions (c : ClientSubscription) : List EventType :=
  c.event_types

/-- `SubscriptionManager` from `src/controller/subscriptions.rs`. -/
structure SubscriptionManager where
  subscriptions : List (Nat × ClientSubscription)
  buffer_size : Nat

/-- `SubscriptionManager::new` (default capacity 100). -/
def SubscriptionManager.new : SubscriptionManager :=
  { subscriptions := [], buffer_size := DEFAULT_BUFFER_SIZE }

/-- `SubscriptionManager::with_buffer_size`. -/
def SubscriptionManager.with_buffer_size (buffer_size : Nat) : SubscriptionManager :=
  { subscriptions := [], buffer_size := buffer_size }

/-- `SubscriptionManager::subscribe`: `entry(client).or_insert_with(new)`,
then insert the topics. -/
def SubscriptionManager.subscribe (m : SubscriptionManager) (client_id : Nat)
    (event_types : List EventType) : SubscriptionManager :=
  let existing := (assoc_find client_id m.subscriptions).getD
    (ClientSubscription.new m.buffer_size)
  { m with subscriptions :=
      assoc_insert client_id (existing.subscribe event_types) m.subscriptions }

/-- `SubscriptionManager::queue_notification`: push a clone of the
notification onto the outbox of every client subscribed to the topic. -/
def SubscriptionManager.queue_notification (m : SubscriptionManager)
    (event_type : EventType) (notification : RpcNotification) : SubscriptionManager :=
  { m with subscriptions := m.subscriptions.map (fun p =>
      if p.2.is_subscribed event_type then
        (p.1, p.2.queue_notification notification)
      else p) }

/-- `SubscriptionManager::drain_notifications`: drain the client's outbox
(empty result for an unknown client). -/
def SubscriptionManager.drain_notifications (m : SubscriptionManager)
    (client_id : Nat) : List RpcNotification × SubscriptionManager :=
  match assoc_find client_id m.subscriptions with
  | none => ([], m)
  | some c =>
    let r := c.drain_notifications
    (r.1, { m with subscriptions := assoc_insert client_id r.2 m.subscriptions })

/-- `SubscriptionManager::get_subscriptions`. -/
def SubscriptionManager.get_subscriptions (m : SubscriptionManager)
    (client_id : Nat) : List EventType :=
  ((assoc_find client_id m.subscriptions).map
    (fun c => c.get_subscriptions)).getD []

/-- `SubscriptionManager::remove_client`. -/
def SubscriptionManager.remove_client (m : SubscriptionManager)
    (client_id : Nat) : SubscriptionManager :=
  { m with subscriptions := assoc_remove client_id m.subscriptions }

/-! ## Message framing (`src/rpc/framing.rs`)

Bytes are embedded as `Nat` (values below 256 for genuine `u8` data).  The
transport reader is embedded as a pure cursor over a byte list that yields up
to 4096 bytes per `read` call and reports end-of-file when exhausted; the
would-block and interrupted-syscall branches of the I/O loop have no
counterpart on a pure cursor. -/

/-- `MAX_MESSAGE_SIZE` (64 MiB). -/
def MAX_MESSAGE_SIZE : Nat := 64 * 1024 * 1024

/-- The `io::ErrorKind` values produced by the framing code. -/
inductive IoErrorKind where
  | invalidData
  | invalidInput
deriving DecidableEq

/-- An `io::Error` as constructed by the framing code. -/
structure IoError where
  kind : IoErrorKind
  message : String
deriving DecidableEq

/-- `FrameReadResult` from `src/rpc/framing.rs`. -/
inductive FrameReadResult where
  | Complete (message : List Nat)
  | NeedMore
  | Eof
deriving DecidableEq

/-- `ReadState` from `src/rpc/framing.rs`.  The `[u8; 4]` header buffer with
its `bytes_read` count is embedded as the list of header bytes collected so
far (length = `bytes_read`); the payload buffer likewise. -/
inductive ReadState where
  | WaitingForHeader (header_buf : List Nat)
  | WaitingForPayload (expected_len : Nat) (buffer : List Nat)
deriving DecidableEq

/-- `ReadState::default()`: waiting for a fresh 4-byte header. -/
def ReadState.initial : ReadState := .WaitingForHeader []

/-- `FrameReader` from `src/rpc/framing.rs`: the state machine plus the
unprocessed internal buffer. -/
structure FrameReader where
  state : ReadState
  buffer : List Nat
deriving DecidableEq

/-- `FrameReader::new`. -/
def FrameReader.new : FrameReader := { state := .initial, buffer := [] }

/-- `u32::to_be_bytes` of `n as u32` (most significant byte first). -/
def u32_to_be_bytes (n : Nat) : List Nat :=
  [n / 2 ^ 24 % 256, n / 2 ^ 16 % 256, n / 2 ^ 8 % 256, n % 256]

/-- `u32::from_be_bytes`. -/
def u32_from_be_bytes (b0 b1 b2 b3 : Nat) : Nat :=
  b0 * 2 ^ 24 + b1 * 2 ^ 16 + b2 * 2 ^ 8 + b3

/-- `write_frame`: reject payloads above `MAX_MESSAGE_SIZE` before writing,
otherwise emit the 4-byte big-endian length prefix followed by the payload
(the flush has no counterpart on a byte list). -/
def write_frame (data : List Nat) : Except IoError (List Nat) :=
  if data.length > MAX_MESSAGE_SIZE then
    .error { kind := .invalidInput, message := "Message too large" }
  else
    .ok (u32_to_be_bytes data.length ++ data)

/-- The payload-collection step of `FrameReader::try_extract_message`
(`WaitingForPayload` arm): move `min(needed, available)` bytes from the
internal buffer into the payload buffer; a completed payload resets the state
and is returned. -/
def process_payload (expected_len : Nat) (acc : List Nat) (buf : List Nat) :
    Option (List Nat) × ReadState × List Nat :=
  let needed := expected_len - acc.length
  let to_copy := min needed buf.length
  let acc2 := acc ++ buf.take to_copy
  let rest := buf.drop to_copy
  if acc2.length = expected_len then (some acc2, ReadState.initial, rest)
  else (none, .WaitingForPayload expected_len acc2, rest)

/-- `FrameReader::try_extract_message` on a given state and internal buffer:
fill the header (validating the parsed length: zero and oversized lengths are
`InvalidData` errors), then fill the payload.  Returns the extracted message
(if completed), the successor state, and the remaining internal buffer. -/
def try_extract_message (state : ReadState) (buf : List Nat) :
    Except IoError (Option (List Nat) × ReadState × List Nat) :=
  match state with
  | .WaitingForHeader header_buf =>
    let to_copy := min (4 - header_buf.length) buf.length
    let h2 := header_buf ++ buf.take to_copy
    let rest := buf.drop to_copy
    match h2 with
    | [b0, b1, b2, b3] =>
      let msg_len := u32_from_be_bytes b0 b1 b2 b3
      if msg_len = 0 then
        .error { kind := .invalidData, message := "Message length is zero" }
      else if msg_len > MAX_MESSAGE_SIZE then
        .error { kind := .invalidData, message := "Message too large" }
      else
        .ok (process_payload msg_len [] rest)
    | _ => .ok (none, .WaitingForHeader h2, rest)
  | .WaitingForPayload expected_len acc =>
    .ok (process_payload expected_len acc buf)

/-- The "first try to process any buffered data" step at the top of the
`read_frame` loop: extraction is attempted only when the internal buffer is
nonempty. -/
def try_buffered (state : ReadState) (buf : List Nat) :
    Except IoError (Option (List Nat) × ReadState × List Nat) :=
  if buf.isEmpty then .ok (none, state, buf) else try_extract_message state buf

/-- The loop body of `FrameReader::read_frame` over a pure byte cursor:
process buffered data first, then read chunks of up to 4096 bytes, appending
each to the internal buffer and attempting extraction, until a message
completes, the cursor is exhausted (EOF), or a protocol violation occurs.
Returns the result, the successor state, the remaining internal buffer, and
the unread cursor suffix. -/
def read_frame_go (state : ReadState) (buf input : List Nat) :
    Except IoError (FrameReadResult × ReadState × List Nat × List Nat) :=
  match try_buffered state buf with
  | .error e => .error e
  | .ok (some message, state2, rest) => .ok (.Complete message, state2, rest, input)
  | .ok (none, state2, rest) =>
    match input with
    | [] => .ok (.Eof, state2, rest, [])
    | a :: l =>
      let chunk := (a :: l).take 4096
      let input2 := (a :: l).drop 4096
      let buf2 := rest ++ chunk
      match try_extract_message state2 buf2 with
      | .error e => .error e
      | .ok (some message, state3, rest3) =>
        .ok (.Complete message, state3, rest3, input2)
      | .ok (none, state3, rest3) => read_frame_go state3 rest3 input2
termination_by input.length
decreasing_by
  simp only [input2, List.length_drop, List.length_cons]
  omega

/-- `FrameReader::read_frame` on a pure byte cursor. -/
def read_frame (r : FrameReader) (input : List Nat) :
    Except IoError (FrameReadResult × FrameReader × List Nat) :=
  match read_frame_go r.state r.buffer input with
  | .error e => .error e
  | .ok (result, state2, buf2, remaining) =>
    .ok (result, { state := state2, buffer := buf2 }, remaining)

/-! # Theorems -/

/-! ## Association-list lemmas -/

theorem assoc_find_remove_self {α : Type} (k : Nat) (l : List (Nat × α)) :
    assoc_find k (assoc_remove k l) = none := by
  induction l with
  | nil => rfl
  | cons p t ih =>
    obtain ⟨a, b⟩ := p
    rw [assoc_remove, List.filter_cons]
    by_cases h : a = k
    · have hb : ((a, b).1 != k) = false := by simp [h]
      rw [hb]
      exact ih
    · have hb : ((a, b).1 != k) = true := by simp [h]
      rw [hb]
      simp only [if_true]
      have hk : (k == a) = false := by
        simp [beq_iff_eq]
        exact fun he => h he.symm
      rw [assoc_find, List.lookup]
      rw [hk]
      exact ih

theorem assoc_find_remove_ne {α : Type} (k j : Nat) (l : List (Nat × α))
    (h : k ≠ j) : assoc_find k (assoc_remove j l) = assoc_find k l := by
  induction l with
  | nil => rfl
  | cons p t ih =>
    obtain ⟨a, b⟩ := p
    rw [assoc_remove, List.filter_cons]
    by_cases hp : a = j
    · have hb : ((a, b).1 != j) = false := by simp [hp]
      rw [hb]
      have hk : (k == a) = false := by
        simp [beq_iff_eq, hp]
        exact h
      conv_rhs => rw [assoc_find, List.lookup]
      rw [hk]
      exact ih
    · have hb : ((a, b).1 != j) = true := by simp [hp]
      rw [hb]
      simp only [if_true]
      rw [assoc_find, List.lookup]
      conv_rhs => rw [assoc_find, List.lookup]
      by_cases hk : (k == a) = true
      · rw [hk]
      · rw [Bool.not_eq_true] at hk
        rw [hk]
        exact ih

theorem assoc_find_insert_self {α : Type} (k : Nat) (v : α)
    (l : List (Nat × α)) : assoc_find k (assoc_insert k v l) = some v := by
  simp [assoc_insert, assoc_find, List.lookup]

/-! ## C7: destroy clears focus and emits the right notifications -/

/-- C7.  After `handle_surface_destroyed(id)` in a state whose focused
surface is `Some(id)`: the focused surface is `None`, the surface is no
longer in the mirror, and the emitted trace is exactly `SurfaceDestroyed(id)`
followed by `FocusChanged(Some(id) → None)` (the mirror removal precedes
both emissions in the handler body). -/
theorem destroy_focused_surface_clears_focus (st : StateManager) (id : Nat)
    (hfoc : st.focused_surface = some id) :
    (st.handle_surface_destroyed id).1.get_focused_surface = none ∧
    (st.handle_surface_destroyed id).1.has_surface id = false ∧
    (st.handle_surface_destroyed id).2 =
      [.surfaceDestroyed id, .focusChange (some id) none] := by
  refine ⟨?_, ?_, ?_⟩
  · simp [StateManager.handle_surface_destroyed, hfoc,
      StateManager.remove_surface, StateManager.set_focused_surface,
      StateManager.get_focused_surface]
  · simp [StateManager.handle_surface_destroyed, hfoc,
      StateManager.set_focused_surface, StateManager.has_surface,
      StateManager.remove_surface, assoc_contains, assoc_find_remove_self]
  · simp [StateManager.handle_surface_destroyed, hfoc,
      StateManager.remove_surface, StateManager.set_focused_surface]

/-- A sample surface used by concrete witnesses (surface 1000: 100×100 at
the origin, visible, opacity 1, Normal, z-order 0). -/
def sample_surface : SurfaceState :=
  { id := 1000, orig_size := (100, 100),
    src_rect := { x := 0, y := 0, width := 100, height := 100 },
    dest_rect := { x := 0, y := 0, width := 100, height := 100 },
    visibility := true, opacity := 1, orientation := .Normal, z_order := 0 }

/-- Witness for C7 at a concrete state: surface 1000 present and focused. -/
theorem destroy_focused_surface_clears_focus_witness :
    (((StateManager.new.add_surface 1000 sample_surface).set_focused_surface
        (some 1000)).1.focused_surface = some 1000) ∧
    ((((StateManager.new.add_surface 1000 sample_surface).set_focused_surface
        (some 1000)).1.handle_surface_destroyed 1000).1.get_focused_surface = none ∧
      ((((StateManager.new.add_surface 1000 sample_surface).set_focused_surface
        (some 1000)).1.handle_surface_destroyed 1000).1.has_surface 1000 = false) ∧
      ((((StateManager.new.add_surface 1000 sample_surface).set_focused_surface
        (some 1000)).1.handle_surface_destroyed 1000).2 =
        [.surfaceDestroyed 1000, .focusChange (some 1000) none])) :=
  ⟨by decide, destroy_focused_surface_clears_focus _ 1000 (by decide)⟩

/-! ## C4: the focus invariant -/

/-- The invariant of claim C4: whenever the focused surface id is `Some(id)`,
the surface mirror contains an entry for `id`. -/
def focus_invariant (st : StateManager) : Prop :=
  ∀ id : Nat, st.focused_surface = some id → st.has_surface id = true

/-- C4 counterexample.  `StateManager::set_focused_surface` stores the new
focus without checking mirror membership: starting from the empty state
(where the invariant holds), `set_focused_surface(Some 5)` yields a state
whose focused surface is `Some 5` while the mirror has no entry for 5 — the
operation does not preserve the invariant. -/
theorem set_focused_surface_breaks_focus_invariant :
    focus_invariant StateManager.new ∧
    (StateManager.new.set_focused_surface (some 5)).1.focused_surface = some 5 ∧
    (StateManager.new.set_focused_surface (some 5)).1.has_surface 5 = false ∧
    ¬ focus_invariant (StateManager.new.set_focused_surface (some 5)).1 := by
  refine ⟨?_, by decide, by decide, ?_⟩
  · intro id h
    simp [StateManager.new] at h
  · intro hinv
    have h5 := hinv 5 (by decide)
    simp [StateManager.new, StateManager.set_focused_surface,
      StateManager.has_surface, assoc_contains, assoc_find] at h5

/-- C4 amended.  The focus invariant is preserved by
`handle_surface_destroyed`, by `set_focused_surface(None)`, and by
`set_focused_surface(Some id)` whenever `id` is already in the mirror; the
RPC `set_focus` handler establishes the latter precondition by checking
`has_surface` before setting focus, so its output state always satisfies the
invariant. (`set_focused_surface` on an absent id violates the invariant, as
the counterexample shows.) -/
theorem focus_invariant_preservation (st : StateManager) (id : Nat)
    (hinv : focus_invariant st) :
    focus_invariant (st.handle_surface_destroyed id).1 ∧
    focus_invariant (st.set_focused_surface none).1 ∧
    (st.has_surface id = true →
      focus_invariant (st.set_focused_surface (some id)).1) ∧
    (∀ (cap : Cap) (auto_commit : Bool),
      focus_invariant (handle_set_focus st cap id auto_commit).2.1) := by
  have hset_none : focus_invariant (st.set_focused_surface none).1 := by
    intro j hj
    simp [StateManager.set_focused_surface] at hj
    split at hj <;> simp_all
  have hset_some : st.has_surface id = true →
      focus_invariant (st.set_focused_surface (some id)).1 := by
    intro hs j hj
    have hfoc : (st.set_focused_surface (some id)).1.focused_surface = some id := by
      simp [StateManager.set_focused_surface]
      split <;> simp_all
    rw [hfoc] at hj
    have hij : id = j := by injection hj
    subst hij
    have hsame : (st.set_focused_surface (some id)).1.surfaces = st.surfaces := by
      simp [StateManager.set_focused_surface]
      split <;> simp_all
    rw [show (st.set_focused_surface (some id)).1.has_surface id =
      st.has_surface id by simp [StateManager.has_surface, assoc_contains, hsame]]
    exact hs
  refine ⟨?_, hset_none, hset_some, ?_⟩
  · -- handle_surface_destroyed
    intro j hj
    by_cases hfoc : (st.remove_surface id).focused_surface = some id
    · -- the destroyed surface was focused: focus is cleared, so the
      -- hypothesis is contradictory
      have : (st.handle_surface_destroyed id).1.focused_surface = none := by
        simp [StateManager.handle_surface_destroyed, hfoc,
          StateManager.set_focused_surface]
      rw [this] at hj
      cases hj
    · have hst : (st.handle_surface_destroyed id).1 = st.remove_surface id := by
        simp [StateManager.handle_surface_destroyed, hfoc]
      rw [hst] at hj ⊢
      have hj2 : st.focused_surface = some j := hj
      have hja : st.has_surface j = true := hinv j hj2
      have hne : j ≠ id := by
        intro he
        exact hfoc (by simpa [he] using hj)
      simp [StateManager.has_surface, assoc_contains,
        StateManager.remove_surface] at *
      rw [assoc_find_remove_ne j id st.surfaces hne]
      exact hja
  · -- handle_set_focus
    intro cap auto_commit j hj
    by_cases hs : st.has_surface id = true
    · have hout : (handle_set_focus st cap id auto_commit).2.1 =
          (st.set_focused_surface (some id)).1 := by
        simp [handle_set_focus, hs]
        rcases hfind : cap_find cap id with _ | s
        · simp [hfind]
        · simp [hfind]
          cases auto_commit <;> simp
      rw [hout] at hj ⊢
      exact hset_some hs j hj
    · have hout : (handle_set_focus st cap id auto_commit).2.1 = st := by
        simp [handle_set_focus, hs]
      rw [hout] at hj ⊢
      exact hinv j hj

/-- Witness for C4 amended at the concrete state with surface 1000 present. -/
theorem focus_invariant_preservation_witness :
    focus_invariant (StateManager.new.add_surface 1000 sample_surface) ∧
    (focus_invariant
        (((StateManager.new.add_surface 1000 sample_surface).handle_surface_destroyed
          1000)).1 ∧
      focus_invariant
        ((StateManager.new.add_surface 1000 sample_surface).set_focused_surface none).1 ∧
      ((StateManager.new.add_surface 1000 sample_surface).has_surface 1000 = true →
        focus_invariant
          ((StateManager.new.add_surface 1000 sample_surface).set_focused_surface
            (some 1000)).1) ∧
      (∀ (cap : Cap) (auto_commit : Bool),
        focus_invariant
          (handle_set_focus (StateManager.new.add_surface 1000 sample_surface) cap
            1000 auto_commit).2.1)) := by
  have hinv : focus_invariant (StateManager.new.add_surface 1000 sample_surface) := by
    intro id h
    simp [StateManager.new, StateManager.add_surface] at h
  exact ⟨hinv, focus_invariant_preservation _ 1000 hinv⟩

/-! ## C6: set_orientation always errors Unsupported -/

/-- C6.  For every `set_orientation` request on an existing surface (with the
orientation input already validated by request parsing), the handler returns
the internal error `-32603` whose message names orientation control as not
supported, and neither the mirror, nor the capability, nor the notification
trace changes. -/
theorem set_orientation_always_unsupported (st : StateManager) (cap : Cap)
    (id : Nat) (orientation : Orientation) (auto_commit : Bool)
    (hs : st.has_surface id = true) :
    handle_set_orientation st cap id orientation auto_commit =
      (.error { code := -32603,
                message := "Orientation control not supported by current IVI API" },
       st, cap, []) ∧
    (RpcError.internal_error
      "Orientation control not supported by current IVI API").code = -32603 := by
  constructor
  · simp [handle_set_orientation, hs]
    rfl
  · rfl

/-- Witness for C6: surface 1000 present, request `Rotate90`. -/
theorem set_orientation_always_unsupported_witness :
    ((StateManager.new.add_surface 1000 sample_surface).has_surface 1000 = true) ∧
    (handle_set_orientation (StateManager.new.add_surface 1000 sample_surface) []
        1000 .Rotate90 false =
      (.error { code := -32603,
                message := "Orientation control not supported by current IVI API" },
       StateManager.new.add_surface 1000 sample_surface, [], []) ∧
    (RpcError.internal_error
      "Orientation control not supported by current IVI API").code = -32603) :=
  ⟨by decide,
   set_orientation_always_unsupported (StateManager.new.add_surface 1000 sample_surface)
     [] 1000 .Rotate90 false (by decide)⟩

/-! ## C3: wire code for unknown layers -/

/-- C3 evaluation.  On an empty mirror, the surface lookups answer with the
entity-not-found code `-32000`, but `get_layer`, `set_layer_visibility` and
`set_layer_opacity` on an unknown layer id answer with `-32602`
(`RpcError::invalid_params`, message "Layer 999 not found") — not with the
`-32000` code of the unused `RpcError::layer_not_found` constructor. -/
theorem layer_not_found_uses_invalid_params_code :
    handle_get_surface StateManager.new 999 =
      .error { code := -32000, message := "Surface not found: 999" } ∧
    handle_get_layer StateManager.new 999 =
      .error { code := -32602, message := "Layer 999 not found" } ∧
    (handle_set_layer_visibility StateManager.new [] 999 true false).1 =
      .error { code := -32602, message := "Layer 999 not found" } ∧
    (handle_set_layer_opacity StateManager.new [] 999 (1 / 2) false).1 =
      .error { code := -32602, message := "Layer 999 not found" } ∧
    RpcError.layer_not_found 999 =
      { code := -32000, message := "Layer not found: 999" } ∧
    (-32602 : Int) ≠ -32000 := by
  refine ⟨rfl, rfl, rfl, ?_, rfl, by decide⟩
  have hval : validate_opacity (1 / 2) = .ok () := by
    rw [validate_opacity, if_neg]
    norm_num
  simp only [handle_set_layer_opacity]
  rw [hval]
  rfl

/-! ## C2: the wire event-type strings -/

/-- C2 evaluation.  The `event_type` strings produced by the notification
bridge for source- and destination-geometry changes are the two distinct
names `SourceGeometryChanged` and `DestinationGeometryChanged` (among the
thirteen names the specification lists), but the `EventType` subscription-key
enum of `src/rpc/protocol.rs` rejects both names and instead accepts a single
`GeometryChanged` key that is not among the thirteen. -/
theorem event_type_enum_misses_geometry_topics :
    bridge_event_type_string (.sourceGeometryChange 1000
        { x := 0, y := 0, width := 100, height := 100 }
        { x := 10, y := 10, width := 100, height := 100 }) =
      "SourceGeometryChanged" ∧
    bridge_event_type_string (.destinationGeometryChange 1000
        { x := 0, y := 0, width := 100, height := 100 }
        { x := 10, y := 10, width := 100, height := 100 }) =
      "DestinationGeometryChanged" ∧
    "SourceGeometryChanged" ∈ spec_event_type_names ∧
    "DestinationGeometryChanged" ∈ spec_event_type_names ∧
    EventType.deserialize "SourceGeometryChanged" = none ∧
    EventType.deserialize "DestinationGeometryChanged" = none ∧
    EventType.deserialize "GeometryChanged" = some .GeometryChanged ∧
    "GeometryChanged" ∉ spec_event_type_names := by
  refine ⟨rfl, rfl, by decide, by decide, by decide, by decide, by decide, by decide⟩

/-- The bridge emits exactly the thirteen specification names: every
notification's `event_type` string is among them, and every one of the
thirteen is attainable. -/
theorem bridge_strings_are_the_spec_names :
    (∀ d : NotificationData, bridge_event_type_string d ∈ spec_event_type_names) ∧
    (∀ s ∈ spec_event_type_names, ∃ d : NotificationData,
      bridge_event_type_string d = s) := by
  constructor
  · intro d
    cases d <;> simp [bridge_event_type_string, spec_event_type_names]
  · intro s hs
    simp [spec_event_type_names] at hs
    rcases hs with h | h | h | h | h | h | h | h | h | h | h | h | h <;> subst h
    · exact ⟨.surfaceCreated 0, rfl⟩
    · exact ⟨.surfaceDestroyed 0, rfl⟩
    · exact ⟨.sourceGeometryChange 0 ⟨0, 0, 0, 0⟩ ⟨0, 0, 0, 0⟩, rfl⟩
    · exact ⟨.destinationGeometryChange 0 ⟨0, 0, 0, 0⟩ ⟨0, 0, 0, 0⟩, rfl⟩
    · exact ⟨.visibilityChange 0 false true, rfl⟩
    · exact ⟨.opacityChange 0 0 1, rfl⟩
    · exact ⟨.orientationChange 0 .Normal .Rotate90, rfl⟩
    · exact ⟨.zOrderChange 0 0 1, rfl⟩
    · exact ⟨.focusChange none none, rfl⟩
    · exact ⟨.layerCreated 0, rfl⟩
    · exact ⟨.layerDestroyed 0, rfl⟩
    · exact ⟨.layerVisibilityChange 0 false true, rfl⟩
    · exact ⟨.layerOpacityChange 0 0 1, rfl⟩

/-! ## C5: outbox capacity and FIFO drop -/

/-- A sample notification used by concrete subscription scenarios. -/
def sample_notification (n : Nat) : RpcNotification :=
  { method := "notification",
    params := .obj [("event_type", .str "SurfaceCreated"), ("surface_id", .num n)] }

/-- C5 counterexample.  With a configured outbox capacity of 0, queuing a
single notification on a subscribed client leaves an outbox of length 1
(`pop_front` on the empty deque is a no-op, then the entry is pushed), which
exceeds the capacity — so the outbox-length bound does not hold for every
configured capacity. -/
theorem outbox_capacity_zero_exceeded :
    ((((SubscriptionManager.with_buffer_size 0).subscribe 1
        [.SurfaceCreated]).queue_notification .SurfaceCreated
        (sample_notification 1)).subscriptions.map
      (fun p => (p.1, p.2.event_buffer.length))) = [(1, 1)] ∧
    ¬ (1 ≤ 0) := by
  exact ⟨rfl, by decide⟩

/-- Queuing never changes the configured capacity. -/
theorem queue_size_inv (c : ClientSubscription) (n : RpcNotification) :
    (c.queue_notification n).buffer_size = c.buffer_size := by
  simp [ClientSubscription.queue_notification]

/-- One queue step keeps the outbox length within a positive capacity. -/
theorem queue_step_bound (cap : Nat) (hcap : 1 ≤ cap) (c : ClientSubscription)
    (n : RpcNotification) (hsize : c.buffer_size = cap)
    (hlen : c.event_buffer.length ≤ cap) :
    (c.queue_notification n).event_buffer.length ≤ cap := by
  simp only [ClientSubscription.queue_notification]
  by_cases hfull : c.event_buffer.length ≥ c.buffer_size
  · have hne : c.event_buffer ≠ [] := by
      intro he
      rw [he] at hfull
      simp at hfull
      omega
    simp [hfull, List.length_tail]
    have := List.length_pos.mpr hne
    omega
  · simp [hfull]
    omega

/-- Any fold of queue steps keeps the outbox length within a positive
capacity. -/
theorem queue_fold_bound (cap : Nat) (hcap : 1 ≤ cap) (ns : List RpcNotification) :
    ∀ (c : ClientSubscription), c.buffer_size = cap → c.event_buffer.length ≤ cap →
    (ns.foldl (fun c n => c.queue_notification n) c).event_buffer.length ≤ cap := by
  induction ns with
  | nil => intro c _ h; exact h
  | cons n rest ih =>
    intro c hb hl
    exact ih _ (by rw [queue_size_inv]; exact hb) (queue_step_bound cap hcap c n hb hl)

/-- C5 amended.  For every configured capacity of at least 1: a queue step
keeps the outbox length at most the capacity, any sequence of
`queue_notification` calls starting from a fresh subscription keeps it so,
and when the outbox is full the oldest (front) entry is dropped before the
new one is appended; concretely, with capacity 2 and three sequential
notifications N1, N2, N3 on a subscribed client, `drain` returns exactly
`[N2, N3]`.  (Capacity 0 violates the bound, as the counterexample shows.) -/
theorem outbox_bound_and_fifo_drop (cap : Nat) (hcap : 1 ≤ cap) :
    (∀ (c : ClientSubscription) (n : RpcNotification), c.buffer_size = cap →
      c.event_buffer.length ≤ cap →
      (c.queue_notification n).event_buffer.length ≤ cap) ∧
    (∀ (ns : List RpcNotification) (topics : List EventType),
      ((ns.foldl (fun c n => c.queue_notification n)
        ((ClientSubscription.new cap).subscribe topics)).event_buffer.length ≤ cap)) ∧
    (∀ (c : ClientSubscription) (n : RpcNotification),
      c.event_buffer.length ≥ c.buffer_size →
      (c.queue_notification n).event_buffer = c.event_buffer.tail ++ [n]) ∧
    (∀ n1 n2 n3 : RpcNotification,
      ((((((SubscriptionManager.with_buffer_size 2).subscribe 1
          [.SurfaceCreated]).queue_notification .SurfaceCreated n1).queue_notification
          .SurfaceCreated n2).queue_notification .SurfaceCreated n3).drain_notifications
          1).1 = [n2, n3]) := by
  refine ⟨fun c n => queue_step_bound cap hcap c n, ?_, ?_, ?_⟩
  · intro ns topics
    exact queue_fold_bound cap hcap ns _ rfl
      (by simp [ClientSubscription.new, ClientSubscription.subscribe])
  · intro c n hfull
    simp [ClientSubscription.queue_notification, hfull]
  · intro n1 n2 n3
    rfl

/-- Witness for C5 amended at capacity 2 with three concrete notifications. -/
theorem outbox_bound_and_fifo_drop_witness :
    (1 ≤ 2) ∧
    ((∀ (c : ClientSubscription) (n : RpcNotification), c.buffer_size = 2 →
        c.event_buffer.length ≤ 2 →
        (c.queue_notification n).event_buffer.length ≤ 2) ∧
      (∀ (ns : List RpcNotification) (topics : List EventType),
        ((ns.foldl (fun c n => c.queue_notification n)
          ((ClientSubscription.new 2).subscribe topics)).event_buffer.length ≤ 2)) ∧
      (∀ (c : ClientSubscription) (n : RpcNotification),
        c.event_buffer.length ≥ c.buffer_size →
        (c.queue_notification n).event_buffer = c.event_buffer.tail ++ [n]) ∧
      (∀ n1 n2 n3 : RpcNotification,
        ((((((SubscriptionManager.with_buffer_size 2).subscribe 1
            [.SurfaceCreated]).queue_notification .SurfaceCreated n1).queue_notification
            .SurfaceCreated n2).queue_notification .SurfaceCreated n3).drain_notifications
            1).1 = [n2, n3])) :=
  ⟨by decide, outbox_bound_and_fifo_drop 2 (by decide)⟩

/-! ## C8: the event mask gates the diff categories -/

/-- C8.  With an event mask that has only the Visibility bit set and
snapshots differing in both visibility and opacity, the gated emitter
produces exactly one notification, `VisibilityChanged`; and when the
capability reports event mask 0, `handle_surface_configured` diffs every
attribute (it emits via the unfiltered `emit_surface_property_changes`). -/
theorem event_mask_gates_diff (surface_id : Nat) (old new : SurfaceState)
    (hvis : old.visibility ≠ new.visibility)
    (_hop : opacity_differs old.opacity new.opacity = true)
    (st : StateManager) (cap : Cap) (id : Nat) (s : CapSurface)
    (old2 ns : SurfaceState)
    (hfind : cap_find cap id = some s)
    (hget : st.get_surface id = some old2)
    (hmask : s.event_mask = 0)
    (hsnap : cap_snapshot id s old2.z_order = some ns) :
    emit_surface_property_changes_filtered surface_id old new
        IVI_NOTIFICATION_VISIBILITY =
      [.visibilityChange surface_id old.visibility new.visibility] ∧
    (st.handle_surface_configured cap id).2 =
      emit_surface_property_changes id old2 ns := by
  constructor
  · have hpos : mask_has IVI_NOTIFICATION_VISIBILITY IVI_NOTIFICATION_POSITION = false := by
      decide
    have hsrc : mask_has IVI_NOTIFICATION_VISIBILITY IVI_NOTIFICATION_SOURCE_RECT = false := by
      decide
    have hdst : mask_has IVI_NOTIFICATION_VISIBILITY IVI_NOTIFICATION_DEST_RECT = false := by
      decide
    have hdim : mask_has IVI_NOTIFICATION_VISIBILITY IVI_NOTIFICATION_DIMENSION = false := by
      decide
    have hv : mask_has IVI_NOTIFICATION_VISIBILITY IVI_NOTIFICATION_VISIBILITY = true := by
      decide
    have ho : mask_has IVI_NOTIFICATION_VISIBILITY IVI_NOTIFICATION_OPACITY = false := by
      decide
    have hor : mask_has IVI_NOTIFICATION_VISIBILITY IVI_NOTIFICATION_ORIENTATION = false := by
      decide
    simp [emit_surface_property_changes_filtered, hpos, hsrc, hdst, hdim, hv, ho,
      hor, hvis]
  · simp [StateManager.handle_surface_configured, hfind, hget, hmask, hsnap]

/-- Concrete capability surface for the C8 witness: event mask 0, snapshot
differing from `sample_surface` in several attributes. -/
def c8_cap_surface : CapSurface :=
  { orig_size := (100, 100),
    props := some { src_rect := { x := 0, y := 0, width := 100, height := 100 },
                    dest_rect := { x := 10, y := 10, width := 200, height := 150 },
                    visibility := false, opacity := 1 / 2,
                    orientation := .Normal, event_mask := 0 },
    pending := { src_rect := { x := 0, y := 0, width := 100, height := 100 },
                 dest_rect := { x := 10, y := 10, width := 200, height := 150 },
                 visibility := false, opacity := 1 / 2,
                 orientation := .Normal, event_mask := 0 } }

/-- The snapshot `handle_surface_configured` builds from `c8_cap_surface`
with preserved z-order 0. -/
def c8_new_state : SurfaceState :=
  { id := 1000, orig_size := (100, 100),
    src_rect := { x := 0, y := 0, width := 100, height := 100 },
    dest_rect := { x := 10, y := 10, width := 200, height := 150 },
    visibility := false, opacity := 1 / 2, orientation := .Normal, z_order := 0 }

/-- Witness for C8: `sample_surface` versus a snapshot with flipped
visibility and halved opacity, and the mask-0 configure path on a concrete
state and capability. -/
theorem event_mask_gates_diff_witness :
    ((sample_surface.visibility ≠ c8_new_state.visibility) ∧
      opacity_differs sample_surface.opacity c8_new_state.opacity = true ∧
      cap_find [(1000, c8_cap_surface)] 1000 = some c8_cap_surface ∧
      (StateManager.new.add_surface 1000 sample_surface).get_surface 1000 =
        some sample_surface ∧
      c8_cap_surface.event_mask = 0 ∧
      cap_snapshot 1000 c8_cap_surface sample_surface.z_order = some c8_new_state) ∧
    (emit_surface_property_changes_filtered 1000 sample_surface c8_new_state
        IVI_NOTIFICATION_VISIBILITY =
      [.visibilityChange 1000 sample_surface.visibility c8_new_state.visibility] ∧
    ((StateManager.new.add_surface 1000 sample_surface).handle_surface_configured
        [(1000, c8_cap_surface)] 1000).2 =
      emit_surface_property_changes 1000 sample_surface c8_new_state) :=
  have hop : opacity_differs sample_surface.opacity c8_new_state.opacity = true := by
    simp [opacity_differs, f32_epsilon, sample_surface, c8_new_state]
    rw [abs_of_nonneg (by norm_num)]
    norm_num
  ⟨⟨by decide, hop, rfl, rfl, rfl, rfl⟩,
   event_mask_gates_diff 1000 sample_surface c8_new_state (by decide) hop
     (StateManager.new.add_surface 1000 sample_surface) [(1000, c8_cap_surface)]
     1000 c8_cap_surface sample_surface c8_new_state rfl rfl
     rfl rfl⟩

/-! ## C1: batched mutators and commit -/

/-- Number of `DestinationGeometryChanged` notifications in a trace. -/
def count_dest_geometry (trace : List NotificationData) : Nat :=
  (trace.filter fun d =>
    match d with
    | .destinationGeometryChange .. => true
    | _ => false).length

/-- Capability surface seeding the C1 scenario (surface 1000, committed
destination rectangle at the origin, event mask 0). -/
def c1_cap_surface : CapSurface :=
  { orig_size := (100, 100),
    props := some { src_rect := { x := 0, y := 0, width := 100, height := 100 },
                    dest_rect := { x := 0, y := 0, width := 100, height := 100 },
                    visibility := true, opacity := 1,
                    orientation := .Normal, event_mask := 0 },
    pending := { src_rect := { x := 0, y := 0, width := 100, height := 100 },
                 dest_rect := { x := 0, y := 0, width := 100, height := 100 },
                 visibility := true, opacity := 1,
                 orientation := .Normal, event_mask := 0 } }

/-- C1 scenario, step 1: `set_position {id:1000, x:50, y:60}` with the
default `auto_commit = false`. -/
def c1_step1 :=
  handle_set_position (StateManager.new.add_surface 1000 sample_surface)
    [(1000, c1_cap_surface)] 1000 50 60 false

/-- C1 scenario, step 2: `set_size {id:1000, width:300, height:200}` with the
default `auto_commit = false`, on the state and capability left by step 1. -/
def c1_step2 :=
  handle_set_size c1_step1.2.1 c1_step1.2.2.1 1000 300 200 false

/-- C1 scenario, step 3: `commit`, on the state and capability left by
step 2. -/
def c1_step3 :=
  handle_commit c1_step2.2.1 c1_step2.2.2.1

/-- C1 counterexample.  In the batched scenario (`set_position`, `set_size`,
both with `auto_commit = false`, then `commit`): all three requests succeed
and the commit flushes, no notification is emitted before the commit — but
none is emitted after it either.  `handle_commit` only flushes; it never
re-reads the entity or applies a diff, so the number of
`DestinationGeometryChanged` notifications observable after `commit` is 0,
not 1 as the claim states. -/
theorem batched_commit_emits_no_notification :
    c1_step1.1 = .ok { success := true, committed := false } ∧
    c1_step1.2.2.2 = [] ∧
    c1_step2.1 = .ok { success := true, committed := false } ∧
    c1_step2.2.2.2 = [] ∧
    c1_step3.1 = .ok true ∧
    count_dest_geometry c1_step3.2.2.2 = 0 ∧
    count_dest_geometry c1_step3.2.2.2 ≠ 1 :=
  ⟨rfl, rfl, rfl, rfl, rfl, rfl, by decide⟩

/-- C1 amended.  For every state and capability where the surface exists and
the inputs validate, the batched sequence `set_position` (auto_commit false),
`set_size` (auto_commit false), `commit` has every request succeed with
`committed = false` on the mutators, emits no notification at any of the
three steps (in particular no `DestinationGeometryChanged` either before or
after the successful flush), and leaves the mirror untouched; deferred
re-read and diff happens only on the `auto_commit = true` path of the
mutators, not on `commit`. -/
theorem batched_commit_defers_no_diff (st : StateManager) (cap : Cap)
    (id : Nat) (x y w h : Int) (s : CapSurface)
    (hx : validate_position x y = .ok ())
    (hwh : validate_size w h = .ok ())
    (hs : st.has_surface id = true)
    (hfind : cap_find cap id = some s) :
    (handle_set_position st cap id x y false).1 =
      .ok { success := true, committed := false } ∧
    (handle_set_position st cap id x y false).2.1 = st ∧
    (handle_set_position st cap id x y false).2.2.2 = [] ∧
    (handle_set_size (handle_set_position st cap id x y false).2.1
        (handle_set_position st cap id x y false).2.2.1 id w h false).1 =
      .ok { success := true, committed := false } ∧
    (handle_set_size (handle_set_position st cap id x y false).2.1
        (handle_set_position st cap id x y false).2.2.1 id w h false).2.1 = st ∧
    (handle_set_size (handle_set_position st cap id x y false).2.1
        (handle_set_position st cap id x y false).2.2.1 id w h false).2.2.2 = [] ∧
    (handle_commit
        (handle_set_size (handle_set_position st cap id x y false).2.1
          (handle_set_position st cap id x y false).2.2.1 id w h false).2.1
        (handle_set_size (handle_set_position st cap id x y false).2.1
          (handle_set_position st cap id x y false).2.2.1 id w h false).2.2.1).1 =
      .ok true ∧
    (handle_commit
        (handle_set_size (handle_set_position st cap id x y false).2.1
          (handle_set_position st cap id x y false).2.2.1 id w h false).2.1
        (handle_set_size (handle_set_position st cap id x y false).2.1
          (handle_set_position st cap id x y false).2.2.1 id w h false).2.2.1).2.1 =
      st ∧
    (handle_commit
        (handle_set_size (handle_set_position st cap id x y false).2.1
          (handle_set_position st cap id x y false).2.2.1 id w h false).2.1
        (handle_set_size (handle_set_position st cap id x y false).2.1
          (handle_set_position st cap id x y false).2.2.1 id w h false).2.2.1).2.2.2 =
      [] := by
  have h1 : handle_set_position st cap id x y false =
      (.ok { success := true, committed := false }, st,
        cap_update cap id (s.stage_set_position x y), []) := by
    simp [handle_set_position, hx, hs, hfind]
  have hfind2 : cap_find (cap_update cap id (s.stage_set_position x y)) id =
      some (s.stage_set_position x y) := by
    simp [cap_find, cap_update, assoc_find_insert_self]
  have h2 : handle_set_size st (cap_update cap id (s.stage_set_position x y))
      id w h false =
      (.ok { success := true, committed := false }, st,
        cap_update (cap_update cap id (s.stage_set_position x y)) id
          ((s.stage_set_position x y).stage_set_size w h), []) := by
    simp [handle_set_size, hwh, hs, hfind2]
  rw [h1]
  simp only []
  rw [h2]
  simp [handle_commit]

/-- Witness for C1 amended at the concrete C1 scenario inputs. -/
theorem batched_commit_defers_no_diff_witness :
    (validate_position 50 60 = .ok () ∧
      validate_size 300 200 = .ok () ∧
      (StateManager.new.add_surface 1000 sample_surface).has_surface 1000 = true ∧
      cap_find [(1000, c1_cap_surface)] 1000 = some c1_cap_surface) ∧
    ((handle_set_position (StateManager.new.add_surface 1000 sample_surface)
        [(1000, c1_cap_surface)] 1000 50 60 false).1 =
      .ok { success := true, committed := false } ∧
      (handle_set_position (StateManager.new.add_surface 1000 sample_surface)
        [(1000, c1_cap_surface)] 1000 50 60 false).2.1 =
        StateManager.new.add_surface 1000 sample_surface ∧
      (handle_set_position (StateManager.new.add_surface 1000 sample_surface)
        [(1000, c1_cap_surface)] 1000 50 60 false).2.2.2 = [] ∧
      (handle_set_size (handle_set_position
          (StateManager.new.add_surface 1000 sample_surface)
          [(1000, c1_cap_surface)] 1000 50 60 false).2.1
        (handle_set_position (StateManager.new.add_surface 1000 sample_surface)
          [(1000, c1_cap_surface)] 1000 50 60 false).2.2.1 1000 300 200 false).1 =
        .ok { success := true, committed := false } ∧
      (handle_set_size (handle_set_position
          (StateManager.new.add_surface 1000 sample_surface)
          [(1000, c1_cap_surface)] 1000 50 60 false).2.1
        (handle_set_position (StateManager.new.add_surface 1000 sample_surface)
          [(1000, c1_cap_surface)] 1000 50 60 false).2.2.1 1000 300 200 false).2.1 =
        StateManager.new.add_surface 1000 sample_surface ∧
      (handle_set_size (handle_set_position
          (StateManager.new.add_surface 1000 sample_surface)
          [(1000, c1_cap_surface)] 1000 50 60 false).2.1
        (handle_set_position (StateManager.new.add_surface 1000 sample_surface)
          [(1000, c1_cap_surface)] 1000 50 60 false).2.2.1 1000 300 200 false).2.2.2 =
        [] ∧
      (handle_commit
        (handle_set_size (handle_set_position
            (StateManager.new.add_surface 1000 sample_surface)
            [(1000, c1_cap_surface)] 1000 50 60 false).2.1
          (handle_set_position (StateManager.new.add_surface 1000 sample_surface)
            [(1000, c1_cap_surface)] 1000 50 60 false).2.2.1 1000 300 200 false).2.1
        (handle_set_size (handle_set_position
            (StateManager.new.add_surface 1000 sample_surface)
            [(1000, c1_cap_surface)] 1000 50 60 false).2.1
          (handle_set_position (StateManager.new.add_surface 1000 sample_surface)
            [(1000, c1_cap_surface)] 1000 50 60 false).2.2.1 1000 300 200
            false).2.2.1).1 = .ok true ∧
      (handle_commit
        (handle_set_size (handle_set_position
            (StateManager.new.add_surface 1000 sample_surface)
            [(1000, c1_cap_surface)] 1000 50 60 false).2.1
          (handle_set_position (StateManager.new.add_surface 1000 sample_surface)
            [(1000, c1_cap_surface)] 1000 50 60 false).2.2.1 1000 300 200 false).2.1
        (handle_set_size (handle_set_position
            (StateManager.new.add_surface 1000 sample_surface)
            [(1000, c1_cap_surface)] 1000 50 60 false).2.1
          (handle_set_position (StateManager.new.add_surface 1000 sample_surface)
            [(1000, c1_cap_surface)] 1000 50 60 false).2.2.1 1000 300 200
            false).2.2.1).2.1 = StateManager.new.add_surface 1000 sample_surface ∧
      (handle_commit
        (handle_set_size (handle_set_position
            (StateManager.new.add_surface 1000 sample_surface)
            [(1000, c1_cap_surface)] 1000 50 60 false).2.1
          (handle_set_position (StateManager.new.add_surface 1000 sample_surface)
            [(1000, c1_cap_surface)] 1000 50 60 false).2.2.1 1000 300 200 false).2.1
        (handle_set_size (handle_set_position
            (StateManager.new.add_surface 1000 sample_surface)
            [(1000, c1_cap_surface)] 1000 50 60 false).2.1
          (handle_set_position (StateManager.new.add_surface 1000 sample_surface)
            [(1000, c1_cap_surface)] 1000 50 60 false).2.2.1 1000 300 200
            false).2.2.1).2.2.2 = []) :=
  ⟨⟨rfl, rfl, rfl, rfl⟩,
   batched_commit_defers_no_diff (StateManager.new.add_surface 1000 sample_surface)
     [(1000, c1_cap_surface)] 1000 50 60 300 200 c1_cap_surface rfl rfl rfl rfl⟩

/-! ## C10: the empty-payload asymmetry at the framing boundary -/

/-- C10.  `write_frame` accepts the empty payload and writes a frame whose
length header is zero (`[0,0,0,0]`), but a fresh `FrameReader` reading that
very frame fails with an `InvalidData` error ("Message length is zero") — the
frame produced for the empty payload can never be read back. -/
theorem empty_payload_frame_unreadable :
    write_frame [] = .ok [0, 0, 0, 0] ∧
    read_frame FrameReader.new [0, 0, 0, 0] =
      .error { kind := .invalidData, message := "Message length is zero" } := by
  constructor
  · rfl
  · norm_num [read_frame, read_frame_go, FrameReader.new, ReadState.initial,
      try_buffered, try_extract_message, u32_from_be_bytes]

/-! ## C9: framing round-trip -/

theorem u32_be_roundtrip (n : Nat) (h : n < 2 ^ 32) :
    u32_from_be_bytes (n / 2 ^ 24 % 256) (n / 2 ^ 16 % 256) (n / 2 ^ 8 % 256)
      (n % 256) = n := by
  simp only [u32_from_be_bytes]
  omega

theorem process_payload_exact (expected : Nat) (acc buf : List Nat)
    (h : acc.length + buf.length = expected) :
    process_payload expected acc buf = (some (acc ++ buf), ReadState.initial, []) := by
  have hneed : expected - acc.length = buf.length := by omega
  simp only [process_payload, hneed, min_self, List.take_length,
    List.drop_length, List.length_append]
  rw [if_pos h]

theorem process_payload_short (expected : Nat) (acc buf : List Nat)
    (h : acc.length + buf.length < expected) :
    process_payload expected acc buf =
      (none, .WaitingForPayload expected (acc ++ buf), []) := by
  have hmin : min (expected - acc.length) buf.length = buf.length :=
    Nat.min_eq_right (by omega)
  simp only [process_payload, hmin, List.take_length, List.drop_length,
    List.length_append]
  rw [if_neg (by omega)]

/-- Header extraction on a fresh reader whose buffer holds at least the four
header bytes: the length is parsed and validated, and payload collection
starts on the remainder. -/
theorem try_extract_message_header4 (b0 b1 b2 b3 : Nat) (rest : List Nat) :
    try_extract_message (.WaitingForHeader []) (b0 :: b1 :: b2 :: b3 :: rest) =
      if u32_from_be_bytes b0 b1 b2 b3 = 0 then
        .error { kind := .invalidData, message := "Message length is zero" }
      else if u32_from_be_bytes b0 b1 b2 b3 > MAX_MESSAGE_SIZE then
        .error { kind := .invalidData, message := "Message too large" }
      else .ok (process_payload (u32_from_be_bytes b0 b1 b2 b3) [] rest) := by
  have hmin : min (4 - ([] : List Nat).length)
      (b0 :: b1 :: b2 :: b3 :: rest).length = 4 := by
    simp only [List.length_nil, List.length_cons, Nat.sub_zero]
    omega
  have htake4 : (b0 :: b1 :: b2 :: b3 :: rest).take 4 = [b0, b1, b2, b3] := rfl
  have hdrop4 : (b0 :: b1 :: b2 :: b3 :: rest).drop 4 = rest := rfl
  simp only [try_extract_message, hmin, List.nil_append, htake4, hdrop4]

/-- Feeding exactly the missing payload bytes to a reader waiting for a
payload (with an empty internal buffer) completes the message. -/
theorem read_frame_go_payload (N : Nat) :
    ∀ (input acc : List Nat) (expected : Nat), input.length ≤ N →
    acc.length < expected → acc.length + input.length = expected →
    read_frame_go (.WaitingForPayload expected acc) [] input =
      .ok (.Complete (acc ++ input), ReadState.initial, [], []) := by
  induction N with
  | zero =>
    intro input acc expected hlen hlt hsum
    omega
  | succ N ih =>
    intro input acc expected hlen hlt hsum
    cases input with
    | nil => simp at hsum; omega
    | cons a l =>
      rw [read_frame_go]
      have hbuf : try_buffered (ReadState.WaitingForPayload expected acc) [] =
          .ok (none, .WaitingForPayload expected acc, []) := rfl
      rw [hbuf]
      simp only [List.nil_append]
      by_cases hsmall : (a :: l).length ≤ 4096
      · have hchunk : (a :: l).take 4096 = a :: l := List.take_of_length_le hsmall
        have hdrop : (a :: l).drop 4096 = [] := List.drop_eq_nil_of_le hsmall
        simp only [hchunk, hdrop, try_extract_message,
          process_payload_exact expected acc (a :: l) (by omega)]
      · have hchunklen : ((a :: l).take 4096).length = 4096 := by
          rw [List.length_take]
          omega
        simp only [try_extract_message,
          process_payload_short expected acc ((a :: l).take 4096)
            (by rw [hchunklen]; omega)]
        rw [ih ((a :: l).drop 4096) (acc ++ (a :: l).take 4096) expected
          (by rw [List.length_drop]; omega)
          (by rw [List.length_append, hchunklen]; omega)
          (by rw [List.length_append, hchunklen, List.length_drop]; omega)]
        rw [List.append_assoc, List.take_append_drop]

/-- C9.  For every payload of 1 to 64 MiB made of genuine bytes, writing it
with `write_frame` and reading the produced bytes back with a fresh
`FrameReader` yields `Complete(payload)` (with the reader reset and the
cursor fully consumed). -/
theorem frame_roundtrip (data : List Nat) (hlow : 1 ≤ data.length)
    (hhigh : data.length ≤ MAX_MESSAGE_SIZE) (_hbytes : ∀ b ∈ data, b < 256) :
    write_frame data = .ok (u32_to_be_bytes data.length ++ data) ∧
    read_frame FrameReader.new (u32_to_be_bytes data.length ++ data) =
      .ok (.Complete data, FrameReader.new, []) := by
  have hmaxsize : MAX_MESSAGE_SIZE < 2 ^ 32 := by decide
  constructor
  · rw [write_frame, if_neg (by omega)]
  · set n := data.length with hn
    have hmask : n < 2 ^ 32 := by omega
    have hframe : u32_to_be_bytes n ++ data =
        (n / 2 ^ 24 % 256) :: (n / 2 ^ 16 % 256) :: (n / 2 ^ 8 % 256) ::
          (n % 256) :: data := rfl
    have hgo : read_frame_go ReadState.initial []
        ((n / 2 ^ 24 % 256) :: (n / 2 ^ 16 % 256) :: (n / 2 ^ 8 % 256) ::
          (n % 256) :: data) =
        .ok (.Complete data, ReadState.initial, [], []) := by
      rw [read_frame_go]
      have hbuf : try_buffered ReadState.initial [] =
          .ok (none, .WaitingForHeader [], []) := rfl
      rw [hbuf]
      simp only [List.nil_append]
      by_cases hsmall : 4 + n ≤ 4096
      · -- the whole frame fits in the first chunk
        have hframelen : ((n / 2 ^ 24 % 256) :: (n / 2 ^ 16 % 256) ::
            (n / 2 ^ 8 % 256) :: (n % 256) :: data).length = 4 + n := by
          simp [hn]
          omega
        have hchunk : ((n / 2 ^ 24 % 256) :: (n / 2 ^ 16 % 256) ::
            (n / 2 ^ 8 % 256) :: (n % 256) :: data).take 4096 =
            (n / 2 ^ 24 % 256) :: (n / 2 ^ 16 % 256) :: (n / 2 ^ 8 % 256) ::
              (n % 256) :: data :=
          List.take_of_length_le (by omega)
        have hdrop : ((n / 2 ^ 24 % 256) :: (n / 2 ^ 16 % 256) ::
            (n / 2 ^ 8 % 256) :: (n % 256) :: data).drop 4096 = [] :=
          List.drop_eq_nil_of_le (by omega)
        simp only [hchunk, hdrop, try_extract_message_header4,
          u32_be_roundtrip n hmask, if_neg (show ¬ n = 0 by omega),
          if_neg (show ¬ n > MAX_MESSAGE_SIZE by omega),
          process_payload_exact n [] data (by simp [hn]), List.nil_append]
      · -- the first chunk is 4096 bytes; the rest of the payload follows
        have htail : ∀ rest : List Nat,
            ((n / 2 ^ 24 % 256) :: (n / 2 ^ 16 % 256) :: (n / 2 ^ 8 % 256) ::
              (n % 256) :: rest).take 4096 =
            (n / 2 ^ 24 % 256) :: (n / 2 ^ 16 % 256) :: (n / 2 ^ 8 % 256) ::
              (n % 256) :: rest.take 4092 := by
          intro rest
          rfl
        have hdtail : ((n / 2 ^ 24 % 256) :: (n / 2 ^ 16 % 256) ::
            (n / 2 ^ 8 % 256) :: (n % 256) :: data).drop 4096 =
            data.drop 4092 := rfl
        have hlen4092 : (data.take 4092).length = 4092 := by
          rw [List.length_take]
          omega
        simp only [htail data, hdtail, try_extract_message_header4,
          u32_be_roundtrip n hmask, if_neg (show ¬ n = 0 by omega),
          if_neg (show ¬ n > MAX_MESSAGE_SIZE by omega),
          process_payload_short n [] (data.take 4092) (by simp [hlen4092]; omega),
          List.nil_append]
        rw [read_frame_go_payload ((data.drop 4092).length) (data.drop 4092)
          (data.take 4092) n (le_refl _)
          (by rw [hlen4092]; omega)
          (by rw [hlen4092, List.length_drop]; omega)]
        rw [List.take_append_drop]
    rw [hframe]
    have hstate : (FrameReader.new).state = ReadState.initial := rfl
    have hbuffer : (FrameReader.new).buffer = [] := rfl
    rw [read_frame, hstate, hbuffer, hgo]
    rfl

/-- Witness for C9 at the concrete payload `[42]`. -/
theorem frame_roundtrip_witness :
    (1 ≤ ([42] : List Nat).length ∧ ([42] : List Nat).length ≤ MAX_MESSAGE_SIZE ∧
      ∀ b ∈ ([42] : List Nat), b < 256) ∧
    (write_frame [42] = .ok (u32_to_be_bytes ([42] : List Nat).length ++ [42]) ∧
      read_frame FrameReader.new (u32_to_be_bytes ([42] : List Nat).length ++ [42]) =
        .ok (.Complete [42], FrameReader.new, [])) :=
  ⟨⟨by decide, by decide, by decide⟩,
   frame_roundtrip [42] (by decide) (by decide) (by decide)⟩

end Ivi
